import Mathlib

/-!
Shallow embedding of the bookkeeping core of `bks_backend`:
the general-ledger posting engine (`app/domain/accounting/gl_service.py`),
the AR/AP subledger posting services (`ar_service.py`, `ap_service.py`)
and the reporting aggregator (`app/services/reporting_service.py`).

Modelling conventions:
* Monetary amounts are `Int`, counted in minor units (cents).  The
  store declares every monetary column as `Numeric(18, 2)` and the Python
  code converts every amount with `Decimal(str(x))` and only ever adds,
  subtracts, negates and compares them — exact decimal arithmetic on
  two-fractional-digit values is exactly integer arithmetic on cents.
* Dates are `Int` in `YYYYMMDD` encoding; only their linear order matters.
* UUIDs are `Nat`.  Fresh journal-entry ids are drawn from a `next_id`
  counter in the database state.
* `posted_at = now()` is modelled by the flag `posted_at_set` (only
  null/not-null is ever observed by the code under verification).
* The SQLAlchemy session is modelled by an explicit `DB` state.  A Python
  function that raises before `db.commit()` leaves no observable writes
  (the transaction rolls back), so fallible operations return
  `Except String (result × DB)` where `.error` means the state is
  unchanged and `.ok` carries the committed state.
* SQL `query(...).filter(...)` over a table is `List.filter`, `.first()`
  is `List.find?`, row `UPDATE` of the row with a given primary key is a
  `List.map` that rewrites the matching row (primary keys are unique in
  the real store; `find?`-based statements match the Python `.first()`
  row exactly even without a uniqueness hypothesis).
* String fields that the code only builds for logging/descriptions are
  kept but their interpolated contents are elided (presentation only).
-/

/-- `AccountType` from `app/domain/accounting/enums.py`. -/
inductive AccountType where
  | asset
  | liability
  | equity
  | revenue
  | expense
deriving DecidableEq, BEq, Repr

/-- `SourceModule` from `app/domain/accounting/enums.py`. -/
inductive SourceModule where
  | ar
  | ap
  | bank
  | manual
  | system
deriving DecidableEq, BEq, Repr

/-- `JournalStatus` from `app/domain/accounting/enums.py`. -/
inductive JournalStatus where
  | draft
  | posted
  | void
deriving DecidableEq, BEq, Repr

/-- `InvoiceStatus` from `app/domain/accounting/enums.py`
(`partlyPaid` stands for `PARTIALLY_PAID`). -/
inductive InvoiceStatus where
  | draft
  | sent
  | partlyPaid
  | paid
  | void
deriving DecidableEq, BEq, Repr

/-- `BillStatus` from `app/domain/accounting/enums.py`
(`partlyPaid` stands for `PARTIALLY_PAID`). -/
inductive BillStatus where
  | draft
  | approved
  | partlyPaid
  | paid
  | void
deriving DecidableEq, BEq, Repr

/-- `ChartOfAccount` row from `app/models/accounting/chart_of_accounts.py`. -/
structure ChartOfAccount where
  id : Nat
  company_id : Nat
  code : String
  name : String
  account_type : AccountType
  is_cash : Bool
  is_active : Bool
deriving DecidableEq, Repr

/-- `JournalEntry` row from `app/models/accounting/journal_entry.py`. -/
structure JournalEntry where
  id : Nat
  company_id : Nat
  date : Int
  description : String
  source_module : SourceModule
  source_id : Option Nat
  status : JournalStatus
  posted_at_set : Bool
deriving DecidableEq, Repr

/-- `JournalLine` row from `app/models/accounting/journal_entry.py`. -/
structure JournalLine where
  journal_entry_id : Nat
  account_id : Nat
  description : Option String
  debit : Int
  credit : Int
deriving DecidableEq, Repr

/-- `ARInvoice` row from `app/models/accounting/ar.py`. -/
structure ARInvoice where
  id : Nat
  company_id : Nat
  invoice_number : String
  invoice_date : Int
  due_date : Int
  status : InvoiceStatus
  currency : String
  total_amount : Int
  balance_amount : Int
  contact_id : Nat
  journal_entry_id : Option Nat
deriving DecidableEq, Repr

/-- `ARReceipt` row from `app/models/accounting/ar.py`. -/
structure ARReceipt where
  id : Nat
  company_id : Nat
  receipt_number : String
  receipt_date : Int
  amount : Int
  payment_method : Option String
  contact_id : Nat
  invoice_id : Option Nat
  journal_entry_id : Option Nat
deriving DecidableEq, Repr

/-- `APBill` row from `app/models/accounting/ap.py`. -/
structure APBill where
  id : Nat
  company_id : Nat
  bill_number : String
  bill_date : Int
  due_date : Int
  status : BillStatus
  currency : String
  total_amount : Int
  balance_amount : Int
  contact_id : Nat
  journal_entry_id : Option Nat
deriving DecidableEq, Repr

/-- `APPayment` row from `app/models/accounting/ap.py`. -/
structure APPayment where
  id : Nat
  company_id : Nat
  payment_number : String
  payment_date : Int
  amount : Int
  payment_method : Option String
  contact_id : Nat
  bill_id : Option Nat
  journal_entry_id : Option Nat
deriving DecidableEq, Repr

/-- One element of the `lines_list` argument of `create_journal_entry`
(a Python dict with keys `account_id`, `debit`, `credit`, `description`;
`line.get("debit", 0)` / `line.get("credit", 0)` default to `0`, which the
total fields encode directly). -/
structure LineInput where
  account_id : Nat
  debit : Int
  credit : Int
  description : Option String
deriving DecidableEq, Repr

/-- The relational store: one list per table, plus a fresh-id source for
rows created by the posting engine (Python uses `uuid4`; only freshness
matters to the code). -/
structure DB where
  accounts : List ChartOfAccount
  entries : List JournalEntry
  lines : List JournalLine
  invoices : List ARInvoice
  receipts : List ARReceipt
  bills : List APBill
  payments : List APPayment
  next_id : Nat
deriving DecidableEq, Repr

/-- ASCII case folding of one character code (`A`-`Z` maps to `a`-`z`).
The patterns the services pass to `ILIKE` (`AR`, `Receivable`, `AP`,
`Payable`) are ASCII, for which this matches SQL case-insensitivity. -/
def lower_code (n : Nat) : Nat :=
  if 65 ≤ n && n ≤ 90 then n + 32 else n

/-- The case-folded character codes of a string. -/
def folded_codes (s : String) : List Nat :=
  s.toList.map (fun c => lower_code c.toNat)

/-- `p` is a contiguous run of `l` starting at its head. -/
def codesPre (p l : List Nat) : Bool :=
  match p, l with
  | [], _ => true
  | _ :: _, [] => false
  | c :: p', d :: l' => c == d && codesPre p' l'

/-- `p` occurs as a contiguous run somewhere in `l`. -/
def codesSub (p l : List Nat) : Bool :=
  match l with
  | [] => codesPre p []
  | _ :: l' => codesPre p l || codesSub p l'

/-- SQL `column ILIKE '%pat%'`: case-insensitive substring match. -/
def ilikeContains (pat s : String) : Bool :=
  codesSub (folded_codes pat) (folded_codes s)

/-- `total_debit = sum(Decimal(str(line.get("debit", 0))) for line in lines_list)`. -/
def sum_debits (lines_list : List LineInput) : Int :=
  (lines_list.map (fun l => l.debit)).sum

/-- `total_credit = sum(Decimal(str(line.get("credit", 0))) for line in lines_list)`. -/
def sum_credits (lines_list : List LineInput) : Int :=
  (lines_list.map (fun l => l.credit)).sum

/-- The per-line account check of `create_journal_entry`
(`gl_service.py` lines 82-88): the account row with the given id owned by
the given company, via `.filter(id == account_id, company_id == company_id).first()`.
Note: `is_active` is NOT part of this filter. -/
def line_account (db : DB) (company_id : Nat) (ld : LineInput) : Option ChartOfAccount :=
  db.accounts.find? (fun a => a.id == ld.account_id && a.company_id == company_id)

/-- The `JournalLine` row built for one `lines_list` element
(`gl_service.py` lines 90-97). -/
def mk_journal_line (journal_entry_id : Nat) (ld : LineInput) : JournalLine :=
  { journal_entry_id := journal_entry_id
    account_id := ld.account_id
    description := ld.description
    debit := ld.debit
    credit := ld.credit }

/-- `create_journal_entry` from `app/domain/accounting/gl_service.py`.

Faithful control flow: the debit/credit totals are compared first and an
imbalance raises before any row is touched; the entry is then created
with status POSTED and `posted_at` set, and the per-line loop checks each
line's account (by id and company only) and builds the line rows; any
missing account raises before `db.commit()`, so the transaction rolls
back and no write is observable.  The all-or-nothing `Except` result
encodes exactly that: `.error` leaves the store as it was, `.ok` commits
the new entry and all of its lines. -/
def create_journal_entry (db : DB) (company_id : Nat) (entry_date : Int)
    (description : String) (source_module : SourceModule) (source_id : Option Nat)
    (lines_list : List LineInput) : Except String (JournalEntry × DB) :=
  if sum_debits lines_list ≠ sum_credits lines_list then
    .error "Journal entry is not balanced"
  else
    let journal_entry : JournalEntry :=
      { id := db.next_id
        company_id := company_id
        date := entry_date
        description := description
        source_module := source_module
        source_id := source_id
        status := .posted
        posted_at_set := true }
    if lines_list.all (fun ld => (line_account db company_id ld).isSome) then
      .ok (journal_entry,
        { db with
            entries := db.entries ++ [journal_entry]
            lines := db.lines ++ lines_list.map (mk_journal_line journal_entry.id)
            next_id := db.next_id + 1 })
    else
      .error "Account not found for company"

/-- The filter pipeline of `find_account_by_type_and_name`
(`gl_service.py` lines 137-149): active accounts of the company and type,
then the optional `ILIKE` code and name filters.  Python tests the
patterns for truthiness, so an empty-string pattern applies no filter. -/
def account_search_results (db : DB) (company_id : Nat) (account_type : AccountType)
    (code_pattern name_pattern : Option String) : List ChartOfAccount :=
  let base := db.accounts.filter (fun a =>
    a.company_id == company_id && a.account_type == account_type && a.is_active)
  let withCode :=
    match code_pattern with
    | some p => if p = "" then base else base.filter (fun a => ilikeContains p a.code)
    | none => base
  match name_pattern with
  | some p => if p = "" then withCode else withCode.filter (fun a => ilikeContains p a.name)
  | none => withCode

/-- `find_account_by_type_and_name` from `app/domain/accounting/gl_service.py`:
raises when more than one account matches (and `raise_on_multiple`),
otherwise returns the first match or `None`. -/
def find_account_by_type_and_name (db : DB) (company_id : Nat)
    (account_type : AccountType) (code_pattern name_pattern : Option String)
    (raise_on_multiple : Bool) : Except String (Option ChartOfAccount) :=
  let results := account_search_results db company_id account_type code_pattern name_pattern
  if 1 < results.length && raise_on_multiple then
    .error "Multiple accounts found"
  else
    .ok results.head?

/-- The two-step Accounts-Receivable search that `post_invoice` and
`post_receipt` (`ar_service.py`) both inline: an ASSET account matching
code `AR` / name `Receivable`, retried with no patterns when that finds
nothing. -/
def resolve_ar_account (db : DB) (company_id : Nat) : Except String (Option ChartOfAccount) :=
  match find_account_by_type_and_name db company_id .asset (some "AR") (some "Receivable") true with
  | .error e => .error e
  | .ok (some a) => .ok (some a)
  | .ok none => find_account_by_type_and_name db company_id .asset none none true

/-- The two-step Accounts-Payable search that `post_bill` and
`post_payment` (`ap_service.py`) both inline: a LIABILITY account matching
code `AP` / name `Payable`, retried with no patterns when that finds
nothing. -/
def resolve_ap_account (db : DB) (company_id : Nat) : Except String (Option ChartOfAccount) :=
  match find_account_by_type_and_name db company_id .liability (some "AP") (some "Payable") true with
  | .error e => .error e
  | .ok (some a) => .ok (some a)
  | .ok none => find_account_by_type_and_name db company_id .liability none none true

/-- The cash-account lookup shared by `post_receipt` (`ar_service.py`
lines 166-171) and `post_payment` (`ap_service.py` lines 182-187):
`.filter(company_id, is_cash == True, is_active == True).first()` —
note `.first()`, which silently takes the first row when several active
cash accounts exist. -/
def find_cash_account (db : DB) (company_id : Nat) : Option ChartOfAccount :=
  db.accounts.find? (fun a => a.company_id == company_id && a.is_cash && a.is_active)

/-- `post_invoice` from `app/domain/accounting/ar_service.py`: idempotent
early return when already posted; resolve AR and Revenue accounts; post a
two-line entry (debit AR / credit Revenue for the invoice total); then set
`journal_entry_id` and the new status on the invoice row. -/
def post_invoice (db : DB) (invoice_id : Nat) : Except String (Nat × DB) :=
  match db.invoices.find? (fun i => i.id == invoice_id) with
  | none => .error "Invoice not found"
  | some invoice =>
    match invoice.journal_entry_id with
    | some jid => .ok (jid, db)
    | none =>
      match resolve_ar_account db invoice.company_id with
      | .error e => .error e
      | .ok none => .error "Could not find Accounts Receivable account"
      | .ok (some ar_account) =>
        match find_account_by_type_and_name db invoice.company_id .revenue none none true with
        | .error e => .error e
        | .ok none => .error "Could not find Revenue account"
        | .ok (some revenue_account) =>
          let lines_list : List LineInput :=
            [ { account_id := ar_account.id, debit := invoice.total_amount, credit := 0,
                description := some "AR Invoice" },
              { account_id := revenue_account.id, debit := 0, credit := invoice.total_amount,
                description := some "Revenue from Invoice" } ]
          match create_journal_entry db invoice.company_id invoice.invoice_date
              "Invoice" .ar (some invoice.id) lines_list with
          | .error e => .error e
          | .ok (journal_entry, db1) =>
            let new_status : InvoiceStatus :=
              if invoice.balance_amount < invoice.total_amount ∧ 0 < invoice.balance_amount
              then .partlyPaid else .sent
            .ok (journal_entry.id,
              { db1 with invoices := db1.invoices.map (fun i =>
                  if i.id == invoice_id then
                    { i with journal_entry_id := some journal_entry.id, status := new_status }
                  else i) })

/-- `post_receipt` from `app/domain/accounting/ar_service.py`: idempotent
early return when already posted; resolve the cash account (first active
`is_cash` row) and the AR account; post debit Cash / credit AR for the
receipt amount; set `journal_entry_id` on the receipt; and when the
receipt is linked to an existing invoice, decrement its balance and
recompute its status (`≤ 0 → PAID`, `< total → PARTIALLY_PAID`, else
unchanged). -/
def post_receipt (db : DB) (receipt_id : Nat) : Except String (Nat × DB) :=
  match db.receipts.find? (fun r => r.id == receipt_id) with
  | none => .error "Receipt not found"
  | some receipt =>
    match receipt.journal_entry_id with
    | some jid => .ok (jid, db)
    | none =>
      match find_cash_account db receipt.company_id with
      | none => .error "Could not find Cash account"
      | some cash_account =>
        match resolve_ar_account db receipt.company_id with
        | .error e => .error e
        | .ok none => .error "Could not find Accounts Receivable account"
        | .ok (some ar_account) =>
          let lines_list : List LineInput :=
            [ { account_id := cash_account.id, debit := receipt.amount, credit := 0,
                description := some "Cash received" },
              { account_id := ar_account.id, debit := 0, credit := receipt.amount,
                description := some "AR Receipt" } ]
          match create_journal_entry db receipt.company_id receipt.receipt_date
              "Receipt" .ar (some receipt.id) lines_list with
          | .error e => .error e
          | .ok (journal_entry, db1) =>
            let db2 : DB := { db1 with receipts := db1.receipts.map (fun r =>
                if r.id == receipt_id then { r with journal_entry_id := some journal_entry.id }
                else r) }
            let new_invoices : List ARInvoice :=
              match receipt.invoice_id with
              | none => db2.invoices
              | some iid =>
                match db2.invoices.find? (fun i => i.id == iid) with
                | none => db2.invoices
                | some invoice =>
                  let new_balance := invoice.balance_amount - receipt.amount
                  let new_status : InvoiceStatus :=
                    if new_balance ≤ 0 then .paid
                    else if new_balance < invoice.total_amount then .partlyPaid
                    else invoice.status
                  db2.invoices.map (fun i =>
                    if i.id == iid then
                      { i with balance_amount := new_balance, status := new_status }
                    else i)
            .ok (journal_entry.id, { db2 with invoices := new_invoices })

/-- `post_bill` from `app/domain/accounting/ap_service.py`: idempotent
early return when already posted; resolve Expense and AP accounts; post
debit Expense / credit AP for the bill total; set `journal_entry_id` and
status APPROVED on the bill row. -/
def post_bill (db : DB) (bill_id : Nat) : Except String (Nat × DB) :=
  match db.bills.find? (fun b => b.id == bill_id) with
  | none => .error "Bill not found"
  | some bill =>
    match bill.journal_entry_id with
    | some jid => .ok (jid, db)
    | none =>
      match find_account_by_type_and_name db bill.company_id .expense none none true with
      | .error e => .error e
      | .ok none => .error "Could not find Expense account"
      | .ok (some expense_account) =>
        match resolve_ap_account db bill.company_id with
        | .error e => .error e
        | .ok none => .error "Could not find Accounts Payable account"
        | .ok (some ap_account) =>
          let lines_list : List LineInput :=
            [ { account_id := expense_account.id, debit := bill.total_amount, credit := 0,
                description := some "Expense from Bill" },
              { account_id := ap_account.id, debit := 0, credit := bill.total_amount,
                description := some "AP Bill" } ]
          match create_journal_entry db bill.company_id bill.bill_date
              "Bill" .ap (some bill.id) lines_list with
          | .error e => .error e
          | .ok (journal_entry, db1) =>
            .ok (journal_entry.id,
              { db1 with bills := db1.bills.map (fun b =>
                  if b.id == bill_id then
                    { b with journal_entry_id := some journal_entry.id, status := .approved }
                  else b) })

/-- `post_payment` from `app/domain/accounting/ap_service.py`: idempotent
early return when already posted; resolve the AP account and the cash
account (first active `is_cash` row); post debit AP / credit Cash for the
payment amount; set `journal_entry_id` on the payment; and when the
payment is linked to an existing bill, decrement its balance and
recompute its status (`≤ 0 → PAID`, `< total → PARTIALLY_PAID`, else
unchanged). -/
def post_payment (db : DB) (payment_id : Nat) : Except String (Nat × DB) :=
  match db.payments.find? (fun p => p.id == payment_id) with
  | none => .error "Payment not found"
  | some payment =>
    match payment.journal_entry_id with
    | some jid => .ok (jid, db)
    | none =>
      match resolve_ap_account db payment.company_id with
      | .error e => .error e
      | .ok none => .error "Could not find Accounts Payable account"
      | .ok (some ap_account) =>
        match find_cash_account db payment.company_id with
        | none => .error "Could not find Cash account"
        | some cash_account =>
          let lines_list : List LineInput :=
            [ { account_id := ap_account.id, debit := payment.amount, credit := 0,
                description := some "AP Payment" },
              { account_id := cash_account.id, debit := 0, credit := payment.amount,
                description := some "Cash paid" } ]
          match create_journal_entry db payment.company_id payment.payment_date
              "Payment" .ap (some payment.id) lines_list with
          | .error e => .error e
          | .ok (journal_entry, db1) =>
            let db2 : DB := { db1 with payments := db1.payments.map (fun p =>
                if p.id == payment_id then { p with journal_entry_id := some journal_entry.id }
                else p) }
            let new_bills : List APBill :=
              match payment.bill_id with
              | none => db2.bills
              | some bid =>
                match db2.bills.find? (fun b => b.id == bid) with
                | none => db2.bills
                | some bill =>
                  let new_balance := bill.balance_amount - payment.amount
                  let new_status : BillStatus :=
                    if new_balance ≤ 0 then .paid
                    else if new_balance < bill.total_amount then .partlyPaid
                    else bill.status
                  db2.bills.map (fun b =>
                    if b.id == bid then
                      { b with balance_amount := new_balance, status := new_status }
                    else b)
            .ok (journal_entry.id, { db2 with bills := new_bills })

/-- The signed balance a journal line contributes to its account in the
Balance-Sheet query (`reporting_service.py` lines 175-187): debit − credit
for ASSET/EXPENSE accounts, credit − debit for LIABILITY/EQUITY/REVENUE. -/
def line_signed_balance (t : AccountType) (l : JournalLine) : Int :=
  match t with
  | .asset | .expense => l.debit - l.credit
  | .liability | .equity | .revenue => l.credit - l.debit

/-- The owning entry of a journal line (SQL join on
`JournalEntry.id == JournalLine.journal_entry_id`). -/
def entry_of_line (db : DB) (l : JournalLine) : Option JournalEntry :=
  db.entries.find? (fun e => e.id == l.journal_entry_id)

/-- The joined-and-filtered line set of the Balance-Sheet query: lines
whose owning entry belongs to the company, is dated on or before `as_of`
and is POSTED (`reporting_service.py` lines 189-195).  Note the query does
not filter on the account's `company_id`. -/
def posted_lines_as_of (db : DB) (company_id : Nat) (as_of : Int) : List JournalLine :=
  db.lines.filter (fun l =>
    match entry_of_line db l with
    | some e => e.company_id == company_id && decide (e.date ≤ as_of) && e.status == .posted
    | none => false)

/-- Per-account balance of the Balance-Sheet query (grouped `SUM` of the
signed case expression over the account's filtered lines). -/
def account_balance_as_of (db : DB) (company_id : Nat) (as_of : Int)
    (a : ChartOfAccount) : Int :=
  (((posted_lines_as_of db company_id as_of).filter (fun l => l.account_id == a.id)).map
    (line_signed_balance a.account_type)).sum

/-- One Balance-Sheet result row (`account_data` dict plus the account
type the Python loop dispatches on). -/
structure BSRow where
  code : String
  name : String
  account_type : AccountType
  balance : Int
deriving DecidableEq, Repr

/-- The Balance-Sheet result row of one account: its signed balance when
that balance is non-zero, `none` otherwise (the `HAVING sum(...) != 0`
clause; an account with no matching line produces no row, which coincides
with balance 0). -/
def balance_sheet_row (db : DB) (company_id : Nat) (as_of : Int)
    (a : ChartOfAccount) : Option BSRow :=
  let b := account_balance_as_of db company_id as_of a
  if b ≠ 0 then
    some { code := a.code, name := a.name, account_type := a.account_type, balance := b }
  else none

/-- The result set of the Balance-Sheet query: one row per account with a
non-zero balance. -/
def balance_sheet_rows (db : DB) (company_id : Nat) (as_of : Int) : List BSRow :=
  db.accounts.filterMap (balance_sheet_row db company_id as_of)

/-- The Balance Sheet report.  The Python version omits empty sections
from the response list; the three section lists are kept here (an empty
list is an omitted section). -/
structure BalanceSheet where
  assets : List BSRow
  liabilities : List BSRow
  equity : List BSRow
  total_assets : Int
  total_liabilities : Int
  total_equity : Int
  check_assets : Int
  check_liabilities_plus_equity : Int
deriving DecidableEq, Repr

/-- `get_balance_sheet` from `app/services/reporting_service.py`:
section membership and totals are accumulated only for ASSET, LIABILITY
and EQUITY rows (the loop at lines 229-246 has no branch for REVENUE or
EXPENSE rows, which therefore fall through), and the `check` pair is
`(total_assets, total_liabilities + total_equity)`. -/
def get_balance_sheet (db : DB) (company_id : Nat) (as_of : Int) : BalanceSheet :=
  let rows := balance_sheet_rows db company_id as_of
  let assets := rows.filter (fun r => r.account_type == .asset)
  let liabilities := rows.filter (fun r => r.account_type == .liability)
  let equity := rows.filter (fun r => r.account_type == .equity)
  let total_assets := (assets.map (fun r => r.balance)).sum
  let total_liabilities := (liabilities.map (fun r => r.balance)).sum
  let total_equity := (equity.map (fun r => r.balance)).sum
  { assets := assets
    liabilities := liabilities
    equity := equity
    total_assets := total_assets
    total_liabilities := total_liabilities
    total_equity := total_equity
    check_assets := total_assets
    check_liabilities_plus_equity := total_liabilities + total_equity }

/-- Cash-flow categories (the Python code uses the strings
`"OPERATING"`, `"INVESTING"`, `"FINANCING"`). -/
inductive CFCategory where
  | operating
  | investing
  | financing
deriving DecidableEq, BEq, Repr

/-- `classify_account_for_cash_flow` from `app/services/reporting_service.py`:
REVENUE/EXPENSE → OPERATING; non-cash ASSET → INVESTING;
LIABILITY/EQUITY → FINANCING; everything else (cash assets) → OPERATING. -/
def classify_account_for_cash_flow (a : ChartOfAccount) : CFCategory :=
  match a.account_type with
  | .revenue | .expense => .operating
  | .asset => if a.is_cash then .operating else .investing
  | .liability | .equity => .financing

/-- The account of a journal line (SQL join on
`ChartOfAccount.id == JournalLine.account_id`). -/
def account_of_line (db : DB) (l : JournalLine) : Option ChartOfAccount :=
  db.accounts.find? (fun a => a.id == l.account_id)

/-- Opening cash of `get_cash_flow` (`reporting_service.py` lines
325-339): `SUM(debit − credit)` over lines of cash-flagged accounts whose
owning entry belongs to the company, is dated before `date_from` and is
POSTED. -/
def opening_cash_balance (db : DB) (company_id : Nat) (date_from : Int) : Int :=
  ((db.lines.filter (fun l =>
      (match entry_of_line db l with
       | some e => e.company_id == company_id && decide (e.date < date_from) &&
           e.status == .posted
       | none => false) &&
      (match account_of_line db l with
       | some a => a.is_cash
       | none => false))).map (fun l => l.debit - l.credit)).sum

/-- POSTED entries of the company dated within the window
(`reporting_service.py` lines 346-355). -/
def entries_in_period (db : DB) (company_id : Nat) (date_from date_to : Int) :
    List JournalEntry :=
  db.entries.filter (fun e =>
    e.company_id == company_id && decide (date_from ≤ e.date) &&
      decide (e.date ≤ date_to) && e.status == .posted)

/-- The lines of one entry joined with their accounts (the `all_lines`
query grouped by entry id; the inner join drops a line whose account id
resolves to no account row). -/
def entry_lines_joined (db : DB) (e : JournalEntry) : List (JournalLine × ChartOfAccount) :=
  (db.lines.filter (fun l => l.journal_entry_id == e.id)).filterMap
    (fun l => (account_of_line db l).map (fun a => (l, a)))

/-- `cash_lines`: the entry's lines on cash-flagged accounts. -/
def entry_cash_lines (db : DB) (e : JournalEntry) : List (JournalLine × ChartOfAccount) :=
  (entry_lines_joined db e).filter (fun p => p.2.is_cash)

/-- `non_cash_lines`: the entry's lines on non-cash accounts. -/
def entry_non_cash_lines (db : DB) (e : JournalEntry) : List (JournalLine × ChartOfAccount) :=
  (entry_lines_joined db e).filter (fun p => !p.2.is_cash)

/-- `cash_change`: the entry's net cash delta, `Σ(debit − credit)` over
its cash lines. -/
def entry_cash_delta (db : DB) (e : JournalEntry) : Int :=
  ((entry_cash_lines db e).map (fun p => p.1.debit - p.1.credit)).sum

/-- The category `get_cash_flow` assigns to an entry
(`reporting_service.py` lines 404-419): OPERATING when the entry has no
non-cash line; otherwise the classification of the first non-cash line's
account, re-fetched by id exactly as the Python does (OPERATING when the
fetch finds nothing). -/
def entry_category (db : DB) (e : JournalEntry) : CFCategory :=
  match entry_non_cash_lines db e with
  | [] => .operating
  | p :: _ =>
    match account_of_line db p.1 with
    | some acct => classify_account_for_cash_flow acct
    | none => .operating

/-- The six running inflow/outflow accumulators of `get_cash_flow`. -/
structure CFAcc where
  operating_inflows : Int
  operating_outflows : Int
  investing_inflows : Int
  investing_outflows : Int
  financing_inflows : Int
  financing_outflows : Int
deriving DecidableEq, Repr

/-- The body of the per-entry loop of `get_cash_flow`
(`reporting_service.py` lines 390-436): skip entries with no cash line or
zero cash delta; otherwise add the delta to the category's inflow bucket
when positive, or its absolute value to the outflow bucket when negative. -/
def process_cash_flow_entry (db : DB) (acc : CFAcc) (e : JournalEntry) : CFAcc :=
  if (entry_cash_lines db e).isEmpty then acc
  else
    let delta := entry_cash_delta db e
    if delta = 0 then acc
    else
      let cat := entry_category db e
      if 0 < delta then
        match cat with
        | .operating => { acc with operating_inflows := acc.operating_inflows + delta }
        | .investing => { acc with investing_inflows := acc.investing_inflows + delta }
        | .financing => { acc with financing_inflows := acc.financing_inflows + delta }
      else
        match cat with
        | .operating => { acc with operating_outflows := acc.operating_outflows + |delta| }
        | .investing => { acc with investing_outflows := acc.investing_outflows + |delta| }
        | .financing => { acc with financing_outflows := acc.financing_outflows + |delta| }

/-- The Cash Flow report. -/
structure CashFlowReport where
  opening_cash : Int
  closing_cash : Int
  operating_inflows : Int
  operating_outflows : Int
  operating_net : Int
  investing_inflows : Int
  investing_outflows : Int
  investing_net : Int
  financing_inflows : Int
  financing_outflows : Int
  financing_net : Int
  net_change_in_cash : Int
deriving DecidableEq, Repr

/-- `get_cash_flow` from `app/services/reporting_service.py`.  The Python
groups the period's lines into a dict keyed by entry id and iterates its
values; that grouping is rendered as a fold over the period's entries
(each taking its own lines), which visits exactly the same per-entry line
groups — an entry with no line at all contributes nothing either way. -/
def get_cash_flow (db : DB) (company_id : Nat) (date_from date_to : Int) :
    CashFlowReport :=
  let opening := opening_cash_balance db company_id date_from
  let acc := (entries_in_period db company_id date_from date_to).foldl
    (process_cash_flow_entry db)
    { operating_inflows := 0, operating_outflows := 0, investing_inflows := 0,
      investing_outflows := 0, financing_inflows := 0, financing_outflows := 0 }
  let operating_net := acc.operating_inflows - acc.operating_outflows
  let investing_net := acc.investing_inflows - acc.investing_outflows
  let financing_net := acc.financing_inflows - acc.financing_outflows
  let net_change := operating_net + investing_net + financing_net
  { opening_cash := opening
    closing_cash := opening + net_change
    operating_inflows := acc.operating_inflows
    operating_outflows := acc.operating_outflows
    operating_net := operating_net
    investing_inflows := acc.investing_inflows
    investing_outflows := acc.investing_outflows
    investing_net := investing_net
    financing_inflows := acc.financing_inflows
    financing_outflows := acc.financing_outflows
    financing_net := financing_net
    net_change_in_cash := net_change }

/-- Claim-side categorization (C8's wording): the category determined by
the account type of the entry's first non-cash line — REVENUE/EXPENSE →
OPERATING, non-cash ASSET → INVESTING, LIABILITY/EQUITY → FINANCING — and
OPERATING for an entry with no non-cash line. -/
def claim_first_non_cash_category (db : DB) (e : JournalEntry) : CFCategory :=
  match entry_non_cash_lines db e with
  | [] => .operating
  | p :: _ =>
    match p.2.account_type with
    | .revenue | .expense => .operating
    | .asset => .investing
    | .liability | .equity => .financing

/-- Claim-side counting predicate: the entry has at least one cash line,
a non-zero net cash delta, and the given category. -/
def cf_entry_counts (db : DB) (e : JournalEntry) (cat : CFCategory) : Bool :=
  !(entry_cash_lines db e).isEmpty && decide (entry_cash_delta db e ≠ 0) &&
    decide (claim_first_non_cash_category db e = cat)

/-- Claim-side per-category net (C8's wording): the sum of the net cash
deltas of the period's POSTED entries that count toward the category. -/
def claim_category_net (db : DB) (company_id : Nat) (date_from date_to : Int)
    (cat : CFCategory) : Int :=
  (((entries_in_period db company_id date_from date_to).filter
      (fun e => cf_entry_counts db e cat)).map
    (fun e => entry_cash_delta db e)).sum

/-- Active asset/cash account of company 1 (concrete test data). -/
def glActive : ChartOfAccount :=
  { id := 1, company_id := 1, code := "1000", name := "Cash",
    account_type := .asset, is_cash := true, is_active := true }

/-- Deactivated asset account of company 1 (concrete test data). -/
def glInactive : ChartOfAccount :=
  { id := 2, company_id := 1, code := "1200", name := "Old Equipment",
    account_type := .asset, is_cash := false, is_active := false }

/-- A minimal store used to exercise `create_journal_entry` directly. -/
def glDB : DB :=
  { accounts := [glActive, glInactive], entries := [], lines := [],
    invoices := [], receipts := [], bills := [], payments := [], next_id := 900 }

/-- Concrete AR invoice: total 100, balance 100, not yet posted. -/
def arInvoice : ARInvoice :=
  { id := 10, company_id := 1, invoice_number := "INV-001", invoice_date := 20250115,
    due_date := 20250215, status := .sent, currency := "USD",
    total_amount := 100, balance_amount := 100, contact_id := 7, journal_entry_id := none }

/-- Concrete receipt of 60 linked to invoice 10, not yet posted. -/
def arReceipt60 : ARReceipt :=
  { id := 20, company_id := 1, receipt_number := "RCP-001", receipt_date := 20250120,
    amount := 60, payment_method := some "Check", contact_id := 7,
    invoice_id := some 10, journal_entry_id := none }

/-- Concrete receipt of 150 linked to invoice 10 (more than its balance),
not yet posted. -/
def arReceipt150 : ARReceipt :=
  { id := 21, company_id := 1, receipt_number := "RCP-002", receipt_date := 20250121,
    amount := 150, payment_method := some "Wire", contact_id := 7,
    invoice_id := some 10, journal_entry_id := none }

/-- A store with a proper AR chart (one cash account, one AR account, one
revenue account), invoice 10 and receipts 20/21. -/
def arDB : DB :=
  { accounts :=
      [ { id := 1, company_id := 1, code := "1000", name := "Cash",
          account_type := .asset, is_cash := true, is_active := true },
        { id := 2, company_id := 1, code := "AR-1", name := "Accounts Receivable",
          account_type := .asset, is_cash := false, is_active := true },
        { id := 3, company_id := 1, code := "4000", name := "Sales Revenue",
          account_type := .revenue, is_cash := false, is_active := true } ]
    entries := [], lines := [], invoices := [arInvoice],
    receipts := [arReceipt60, arReceipt150], bills := [], payments := [], next_id := 500 }

/-- Concrete AP bill: total 100, balance 100, not yet posted. -/
def apBill : APBill :=
  { id := 11, company_id := 1, bill_number := "BILL-001", bill_date := 20250110,
    due_date := 20250210, status := .approved, currency := "USD",
    total_amount := 100, balance_amount := 100, contact_id := 8, journal_entry_id := none }

/-- Concrete payment of 60 linked to bill 11, not yet posted. -/
def apPayment60 : APPayment :=
  { id := 21, company_id := 1, payment_number := "PAY-001", payment_date := 20250120,
    amount := 60, payment_method := some "Check", contact_id := 8,
    bill_id := some 11, journal_entry_id := none }

/-- A store with a proper AP chart (one cash account, one AP account, one
expense account), bill 11 and payment 21. -/
def apDB : DB :=
  { accounts :=
      [ { id := 1, company_id := 1, code := "1000", name := "Cash",
          account_type := .asset, is_cash := true, is_active := true },
        { id := 2, company_id := 1, code := "AP-1", name := "Accounts Payable",
          account_type := .liability, is_cash := false, is_active := true },
        { id := 3, company_id := 1, code := "5000", name := "Operating Expenses",
          account_type := .expense, is_cash := false, is_active := true } ]
    entries := [], lines := [], invoices := [], receipts := [],
    bills := [apBill], payments := [apPayment60], next_id := 600 }

/-- A store whose company 1 owns TWO active cash accounts (plus a unique
AR account) and an unposted unlinked receipt 20. -/
def cashDB : DB :=
  { accounts :=
      [ { id := 1, company_id := 1, code := "1000", name := "Cash",
          account_type := .asset, is_cash := true, is_active := true },
        { id := 2, company_id := 1, code := "1001", name := "Cash Two",
          account_type := .asset, is_cash := true, is_active := true },
        { id := 3, company_id := 1, code := "AR-1", name := "Accounts Receivable",
          account_type := .asset, is_cash := false, is_active := true } ]
    entries := [], lines := [],
    invoices := []
    receipts :=
      [ { id := 20, company_id := 1, receipt_number := "RCP-007", receipt_date := 20250120,
          amount := 60, payment_method := none, contact_id := 7,
          invoice_id := none, journal_entry_id := none } ]
    bills := [], payments := [], next_id := 700 }

/-- The ledger of the repository's own `test_reporting_smoke.py` fixture:
a sale of 10000 (debit Cash / credit Revenue) and an expense of 3000
(debit Expense / credit Cash), both POSTED in January 2025. -/
def smokeDB : DB :=
  { accounts :=
      [ { id := 1, company_id := 1, code := "4000", name := "Sales Revenue",
          account_type := .revenue, is_cash := false, is_active := true },
        { id := 2, company_id := 1, code := "5000", name := "Operating Expenses",
          account_type := .expense, is_cash := false, is_active := true },
        { id := 3, company_id := 1, code := "1000", name := "Cash",
          account_type := .asset, is_cash := true, is_active := true },
        { id := 4, company_id := 1, code := "1100", name := "Accounts Receivable",
          account_type := .asset, is_cash := false, is_active := true } ]
    entries :=
      [ { id := 100, company_id := 1, date := 20250115, description := "Sales transaction",
          source_module := .manual, source_id := none, status := .posted,
          posted_at_set := true },
        { id := 101, company_id := 1, date := 20250120, description := "Operating expense",
          source_module := .manual, source_id := none, status := .posted,
          posted_at_set := true } ]
    lines :=
      [ { journal_entry_id := 100, account_id := 1, description := some "Sales",
          debit := 0, credit := 10000 },
        { journal_entry_id := 100, account_id := 3, description := some "Cash received",
          debit := 10000, credit := 0 },
        { journal_entry_id := 101, account_id := 2, description := some "Operating expense",
          debit := 3000, credit := 0 },
        { journal_entry_id := 101, account_id := 3, description := some "Cash paid",
          debit := 0, credit := 3000 } ]
    invoices := [], receipts := [], bills := [], payments := [], next_id := 1000 }

theorem find_map_update_invoice (l : List ARInvoice) (iid : Nat) (g : ARInvoice → ARInvoice)
    (hg : ∀ i, (g i).id = i.id) :
    (l.map (fun i => if i.id == iid then g i else i)).find? (fun i => i.id == iid)
      = (l.find? (fun i => i.id == iid)).map g := by
  induction l with
  | nil => rfl
  | cons hd tl ih =>
    simp only [List.map_cons]
    by_cases h : hd.id = iid
    · have hb : (hd.id == iid) = true := by simpa using h
      have hgb : ((g hd).id == iid) = true := by rw [hg]; exact hb
      rw [if_pos hb]
      simp only [List.find?]
      rw [hgb, hb]
      rfl
    · have hb' : ¬ ((hd.id == iid) = true) := by simpa using h
      have hbf : (hd.id == iid) = false := by simpa using h
      rw [if_neg hb']
      simp only [List.find?]
      rw [hbf]
      exact ih

theorem create_journal_entry_ok (db : DB) (c : Nat) (d : Int) (ds : String)
    (sm : SourceModule) (si : Option Nat) (ls : List LineInput)
    (je : JournalEntry) (db' : DB)
    (h : create_journal_entry db c d ds sm si ls = .ok (je, db')) :
    je = { id := db.next_id, company_id := c, date := d, description := ds,
           source_module := sm, source_id := si, status := .posted, posted_at_set := true } ∧
    db' = { db with
            entries := db.entries ++ [je],
            lines := db.lines ++ ls.map (mk_journal_line db.next_id),
            next_id := db.next_id + 1 } := by
  unfold create_journal_entry at h
  split at h
  · exact absurd h (by simp)
  · split at h
    · simp only [Except.ok.injEq, Prod.mk.injEq] at h
      obtain ⟨h1, h2⟩ := h
      subst h1
      exact ⟨rfl, h2.symm⟩
    · exact absurd h (by simp)

theorem post_invoice_second_call (db : DB) (iid j : Nat) (db1 : DB)
    (h : post_invoice db iid = .ok (j, db1)) :
    post_invoice db1 iid = .ok (j, db1) := by
  unfold post_invoice at h
  split at h
  · exact absurd h (by simp)
  next inv heqf =>
    split at h
    next jid heqj =>
      simp only [Except.ok.injEq, Prod.mk.injEq] at h
      obtain ⟨hj, hdb⟩ := h
      subst hj
      subst hdb
      unfold post_invoice
      rw [heqf]
      simp only []
      rw [heqj]
    next heqj =>
      simp only [] at h
      split at h
      · exact absurd h (by simp)
      · exact absurd h (by simp)
      next ar heqar =>
        split at h
        · exact absurd h (by simp)
        · exact absurd h (by simp)
        next rev heqrev =>
          split at h
          · exact absurd h (by simp)
          next je db' heqcje =>
            simp only [Except.ok.injEq, Prod.mk.injEq] at h
            obtain ⟨hj, hdb⟩ := h
            obtain ⟨-, hdb'⟩ := create_journal_entry_ok _ _ _ _ _ _ _ _ _ heqcje
            have hinv : db'.invoices = db.invoices := by rw [hdb']
            subst hj
            subst hdb
            rw [hinv]
            unfold post_invoice
            simp only []
            rw [find_map_update_invoice db.invoices iid
              (fun i => { i with
                          journal_entry_id := some je.id,
                          status := if inv.balance_amount < inv.total_amount ∧
                              0 < inv.balance_amount
                            then InvoiceStatus.partlyPaid else InvoiceStatus.sent })
              (fun i => rfl), heqf]
            simp only [Option.map_some']

theorem find_map_update_receipt (l : List ARReceipt) (rid : Nat) (g : ARReceipt → ARReceipt)
    (hg : ∀ r, (g r).id = r.id) :
    (l.map (fun r => if r.id == rid then g r else r)).find? (fun r => r.id == rid)
      = (l.find? (fun r => r.id == rid)).map g := by
  induction l with
  | nil => rfl
  | cons hd tl ih =>
    simp only [List.map_cons]
    by_cases h : hd.id = rid
    · have hb : (hd.id == rid) = true := by simpa using h
      have hgb : ((g hd).id == rid) = true := by rw [hg]; exact hb
      rw [if_pos hb]
      simp only [List.find?]
      rw [hgb, hb]
      rfl
    · have hb' : ¬ ((hd.id == rid) = true) := by simpa using h
      have hbf : (hd.id == rid) = false := by simpa using h
      rw [if_neg hb']
      simp only [List.find?]
      rw [hbf]
      exact ih

theorem find_map_update_bill (l : List APBill) (bid : Nat) (g : APBill → APBill)
    (hg : ∀ b, (g b).id = b.id) :
    (l.map (fun b => if b.id == bid then g b else b)).find? (fun b => b.id == bid)
      = (l.find? (fun b => b.id == bid)).map g := by
  induction l with
  | nil => rfl
  | cons hd tl ih =>
    simp only [List.map_cons]
    by_cases h : hd.id = bid
    · have hb : (hd.id == bid) = true := by simpa using h
      have hgb : ((g hd).id == bid) = true := by rw [hg]; exact hb
      rw [if_pos hb]
      simp only [List.find?]
      rw [hgb, hb]
      rfl
    · have hb' : ¬ ((hd.id == bid) = true) := by simpa using h
      have hbf : (hd.id == bid) = false := by simpa using h
      rw [if_neg hb']
      simp only [List.find?]
      rw [hbf]
      exact ih

theorem find_map_update_payment (l : List APPayment) (pid : Nat) (g : APPayment → APPayment)
    (hg : ∀ p, (g p).id = p.id) :
    (l.map (fun p => if p.id == pid then g p else p)).find? (fun p => p.id == pid)
      = (l.find? (fun p => p.id == pid)).map g := by
  induction l with
  | nil => rfl
  | cons hd tl ih =>
    simp only [List.map_cons]
    by_cases h : hd.id = pid
    · have hb : (hd.id == pid) = true := by simpa using h
      have hgb : ((g hd).id == pid) = true := by rw [hg]; exact hb
      rw [if_pos hb]
      simp only [List.find?]
      rw [hgb, hb]
      rfl
    · have hb' : ¬ ((hd.id == pid) = true) := by simpa using h
      have hbf : (hd.id == pid) = false := by simpa using h
      rw [if_neg hb']
      simp only [List.find?]
      rw [hbf]
      exact ih

theorem post_receipt_second_call (db : DB) (rid j : Nat) (db1 : DB)
    (h : post_receipt db rid = .ok (j, db1)) :
    post_receipt db1 rid = .ok (j, db1) := by
  unfold post_receipt at h
  split at h
  · exact absurd h (by simp)
  next rec heqf =>
    split at h
    next jid heqj =>
      simp only [Except.ok.injEq, Prod.mk.injEq] at h
      obtain ⟨hj, hdb⟩ := h
      subst hj
      subst hdb
      unfold post_receipt
      rw [heqf]
      simp only []
      rw [heqj]
    next heqj =>
      simp only [] at h
      split at h
      · exact absurd h (by simp)
      next ca heqca =>
        split at h
        · exact absurd h (by simp)
        · exact absurd h (by simp)
        next ar heqar =>
          split at h
          · exact absurd h (by simp)
          next je db' heqcje =>
            simp only [Except.ok.injEq, Prod.mk.injEq] at h
            obtain ⟨hj, hdb⟩ := h
            obtain ⟨-, hdb'⟩ := create_journal_entry_ok _ _ _ _ _ _ _ _ _ heqcje
            have hrec : db'.receipts = db.receipts := by rw [hdb']
            subst hj
            subst hdb
            rw [hrec]
            unfold post_receipt
            simp only []
            rw [find_map_update_receipt db.receipts rid
              (fun r => { r with journal_entry_id := some je.id })
              (fun r => rfl), heqf]
            simp only [Option.map_some']

theorem post_bill_second_call (db : DB) (bid j : Nat) (db1 : DB)
    (h : post_bill db bid = .ok (j, db1)) :
    post_bill db1 bid = .ok (j, db1) := by
  unfold post_bill at h
  split at h
  · exact absurd h (by simp)
  next bill heqf =>
    split at h
    next jid heqj =>
      simp only [Except.ok.injEq, Prod.mk.injEq] at h
      obtain ⟨hj, hdb⟩ := h
      subst hj
      subst hdb
      unfold post_bill
      rw [heqf]
      simp only []
      rw [heqj]
    next heqj =>
      simp only [] at h
      split at h
      · exact absurd h (by simp)
      · exact absurd h (by simp)
      next exp heqexp =>
        split at h
        · exact absurd h (by simp)
        · exact absurd h (by simp)
        next ap heqap =>
          split at h
          · exact absurd h (by simp)
          next je db' heqcje =>
            simp only [Except.ok.injEq, Prod.mk.injEq] at h
            obtain ⟨hj, hdb⟩ := h
            obtain ⟨-, hdb'⟩ := create_journal_entry_ok _ _ _ _ _ _ _ _ _ heqcje
            have hbl : db'.bills = db.bills := by rw [hdb']
            subst hj
            subst hdb
            rw [hbl]
            unfold post_bill
            simp only []
            rw [find_map_update_bill db.bills bid
              (fun b => { b with journal_entry_id := some je.id, status := .approved })
              (fun b => rfl), heqf]
            simp only [Option.map_some']

theorem post_payment_second_call (db : DB) (pid j : Nat) (db1 : DB)
    (h : post_payment db pid = .ok (j, db1)) :
    post_payment db1 pid = .ok (j, db1) := by
  unfold post_payment at h
  split at h
  · exact absurd h (by simp)
  next pay heqf =>
    split at h
    next jid heqj =>
      simp only [Except.ok.injEq, Prod.mk.injEq] at h
      obtain ⟨hj, hdb⟩ := h
      subst hj
      subst hdb
      unfold post_payment
      rw [heqf]
      simp only []
      rw [heqj]
    next heqj =>
      simp only [] at h
      split at h
      · exact absurd h (by simp)
      · exact absurd h (by simp)
      next ap heqap =>
        split at h
        · exact absurd h (by simp)
        next ca heqca =>
          split at h
          · exact absurd h (by simp)
          next je db' heqcje =>
            simp only [Except.ok.injEq, Prod.mk.injEq] at h
            obtain ⟨hj, hdb⟩ := h
            obtain ⟨-, hdb'⟩ := create_journal_entry_ok _ _ _ _ _ _ _ _ _ heqcje
            have hpa : db'.payments = db.payments := by rw [hdb']
            subst hj
            subst hdb
            rw [hpa]
            unfold post_payment
            simp only []
            rw [find_map_update_payment db.payments pid
              (fun p => { p with journal_entry_id := some je.id })
              (fun p => rfl), heqf]
            simp only [Option.map_some']

theorem post_receipt_applies (db : DB) (rid j : Nat) (db1 : DB) (r : ARReceipt)
    (iid : Nat) (inv : ARInvoice)
    (heqf : db.receipts.find? (fun x => x.id == rid) = some r)
    (heqj : r.journal_entry_id = none)
    (hlink : r.invoice_id = some iid)
    (hfind : db.invoices.find? (fun i => i.id == iid) = some inv)
    (h : post_receipt db rid = .ok (j, db1)) :
    db1.invoices.find? (fun i => i.id == iid) = some { inv with
      balance_amount := inv.balance_amount - r.amount,
      status := if inv.balance_amount - r.amount ≤ 0 then .paid
        else if inv.balance_amount - r.amount < inv.total_amount then .partlyPaid
        else inv.status } := by
  unfold post_receipt at h
  rw [heqf] at h
  simp only [] at h
  rw [heqj] at h
  simp only [] at h
  split at h
  · exact absurd h (by simp)
  next ca heqca =>
    split at h
    · exact absurd h (by simp)
    · exact absurd h (by simp)
    next ar heqar =>
      split at h
      · exact absurd h (by simp)
      next je db' heqcje =>
        simp only [Except.ok.injEq, Prod.mk.injEq] at h
        obtain ⟨hj, hdb⟩ := h
        obtain ⟨-, hdb'⟩ := create_journal_entry_ok _ _ _ _ _ _ _ _ _ heqcje
        have hinv : db'.invoices = db.invoices := by rw [hdb']
        subst hdb
        simp only []
        rw [hlink]
        simp only []
        rw [hinv, hfind]
        simp only []
        rw [find_map_update_invoice db.invoices iid
          (fun i => { i with
                      balance_amount := inv.balance_amount - r.amount,
                      status := if inv.balance_amount - r.amount ≤ 0 then InvoiceStatus.paid
                        else if inv.balance_amount - r.amount < inv.total_amount
                        then InvoiceStatus.partlyPaid
                        else inv.status })
          (fun i => rfl), hfind]
        simp only [Option.map_some']

theorem post_payment_applies (db : DB) (pid j : Nat) (db1 : DB) (p : APPayment)
    (bid : Nat) (bill : APBill)
    (heqf : db.payments.find? (fun x => x.id == pid) = some p)
    (heqj : p.journal_entry_id = none)
    (hlink : p.bill_id = some bid)
    (hfind : db.bills.find? (fun b => b.id == bid) = some bill)
    (h : post_payment db pid = .ok (j, db1)) :
    db1.bills.find? (fun b => b.id == bid) = some { bill with
      balance_amount := bill.balance_amount - p.amount,
      status := if bill.balance_amount - p.amount ≤ 0 then .paid
        else if bill.balance_amount - p.amount < bill.total_amount then .partlyPaid
        else bill.status } := by
  unfold post_payment at h
  rw [heqf] at h
  simp only [] at h
  rw [heqj] at h
  simp only [] at h
  split at h
  · exact absurd h (by simp)
  · exact absurd h (by simp)
  next ap heqap =>
    split at h
    · exact absurd h (by simp)
    next ca heqca =>
      split at h
      · exact absurd h (by simp)
      next je db' heqcje =>
        simp only [Except.ok.injEq, Prod.mk.injEq] at h
        obtain ⟨hj, hdb⟩ := h
        obtain ⟨-, hdb'⟩ := create_journal_entry_ok _ _ _ _ _ _ _ _ _ heqcje
        have hbl : db'.bills = db.bills := by rw [hdb']
        subst hdb
        simp only []
        rw [hlink]
        simp only []
        rw [hbl, hfind]
        simp only []
        rw [find_map_update_bill db.bills bid
          (fun b => { b with
                      balance_amount := bill.balance_amount - p.amount,
                      status := if bill.balance_amount - p.amount ≤ 0 then BillStatus.paid
                        else if bill.balance_amount - p.amount < bill.total_amount
                        then BillStatus.partlyPaid
                        else bill.status })
          (fun b => rfl), hfind]
        simp only [Option.map_some']

theorem post_invoice_counts (db : DB) (iid j : Nat) (db1 : DB) (inv : ARInvoice)
    (heqf : db.invoices.find? (fun i => i.id == iid) = some inv)
    (heqj : inv.journal_entry_id = none)
    (h : post_invoice db iid = .ok (j, db1)) :
    db1.entries.length = db.entries.length + 1 ∧
    db1.lines.length = db.lines.length + 2 := by
  unfold post_invoice at h
  rw [heqf] at h
  simp only [] at h
  rw [heqj] at h
  simp only [] at h
  split at h
  · exact absurd h (by simp)
  · exact absurd h (by simp)
  next ar heqar =>
    split at h
    · exact absurd h (by simp)
    · exact absurd h (by simp)
    next rev heqrev =>
      split at h
      · exact absurd h (by simp)
      next je db' heqcje =>
        simp only [Except.ok.injEq, Prod.mk.injEq] at h
        obtain ⟨hj, hdb⟩ := h
        obtain ⟨-, hdb'⟩ := create_journal_entry_ok _ _ _ _ _ _ _ _ _ heqcje
        subst hdb
        constructor
        · show db'.entries.length = db.entries.length + 1
          rw [hdb']
          simp
        · show db'.lines.length = db.lines.length + 2
          rw [hdb']
          simp

theorem post_invoice_already_posted (db : DB) (iid j : Nat) (inv : ARInvoice)
    (heqf : db.invoices.find? (fun i => i.id == iid) = some inv)
    (heqj : inv.journal_entry_id = some j) :
    post_invoice db iid = .ok (j, db) := by
  unfold post_invoice
  rw [heqf]
  simp only []
  rw [heqj]

theorem rows_type_sum (db : DB) (c : Nat) (d : Int) (t : AccountType)
    (l : List ChartOfAccount) :
    (((l.filterMap (balance_sheet_row db c d)).filter
        (fun r => r.account_type == t)).map (fun r => r.balance)).sum
      = ((l.filter (fun a => a.account_type == t)).map
          (account_balance_as_of db c d)).sum := by
  induction l with
  | nil => rfl
  | cons hd tl ih =>
    by_cases hz : account_balance_as_of db c d hd = 0
    · have hrow : balance_sheet_row db c d hd = none := by
        simp only [balance_sheet_row]
        rw [if_neg (by simpa using hz)]
      rw [List.filterMap_cons_none hrow]
      by_cases ht : (hd.account_type == t) = true
      · rw [List.filter_cons, if_pos ht]
        simp only [List.map_cons, List.sum_cons]
        rw [hz, zero_add]
        exact ih
      · rw [List.filter_cons, if_neg ht]
        exact ih
    · have hrow : balance_sheet_row db c d hd = some
          { code := hd.code, name := hd.name, account_type := hd.account_type,
            balance := account_balance_as_of db c d hd } := by
        simp only [balance_sheet_row]
        rw [if_pos hz]
      rw [List.filterMap_cons_some hrow]
      by_cases ht : (hd.account_type == t) = true
      · rw [List.filter_cons, List.filter_cons, if_pos ht, if_pos ht]
        simp only [List.map_cons, List.sum_cons]
        rw [ih]
      · rw [List.filter_cons, List.filter_cons, if_neg ht, if_neg ht]
        exact ih

theorem entry_category_eq_claim (db : DB) (e : JournalEntry) :
    entry_category db e = claim_first_non_cash_category db e := by
  cases hnc : entry_non_cash_lines db e with
  | nil =>
    unfold entry_category claim_first_non_cash_category
    rw [hnc]
  | cons p rest =>
    have hpm : p ∈ entry_non_cash_lines db e := by
      rw [hnc]; exact List.mem_cons_self p rest
    have hpl : p ∈ entry_lines_joined db e := List.mem_of_mem_filter hpm
    have hcash : p.2.is_cash = false := by
      have := (List.mem_filter.mp hpm).2
      simpa using this
    have hfind : account_of_line db p.1 = some p.2 := by
      unfold entry_lines_joined at hpl
      rw [List.mem_filterMap] at hpl
      obtain ⟨l, hl, hfa⟩ := hpl
      cases hfo : account_of_line db l with
      | none => rw [hfo] at hfa; simp at hfa
      | some a =>
        rw [hfo] at hfa
        simp only [Option.map_some', Option.some.injEq] at hfa
        rw [← hfa]
        exact hfo
    unfold entry_category claim_first_non_cash_category
    rw [hnc]
    simp only []
    rw [hfind]
    simp only []
    unfold classify_account_for_cash_flow
    cases hty : p.2.account_type <;> simp [hty, hcash]

theorem process_entry_nets (db : DB) (acc : CFAcc) (e : JournalEntry) :
    ((process_cash_flow_entry db acc e).operating_inflows
        - (process_cash_flow_entry db acc e).operating_outflows
      = acc.operating_inflows - acc.operating_outflows
        + (if cf_entry_counts db e .operating then entry_cash_delta db e else 0)) ∧
    ((process_cash_flow_entry db acc e).investing_inflows
        - (process_cash_flow_entry db acc e).investing_outflows
      = acc.investing_inflows - acc.investing_outflows
        + (if cf_entry_counts db e .investing then entry_cash_delta db e else 0)) ∧
    ((process_cash_flow_entry db acc e).financing_inflows
        - (process_cash_flow_entry db acc e).financing_outflows
      = acc.financing_inflows - acc.financing_outflows
        + (if cf_entry_counts db e .financing then entry_cash_delta db e else 0)) := by
  unfold process_cash_flow_entry cf_entry_counts
  by_cases hemp : (entry_cash_lines db e).isEmpty = true
  · simp [hemp]
  · by_cases hz : entry_cash_delta db e = 0
    · simp [hemp, hz]
    · rw [entry_category_eq_claim]
      by_cases hpos : 0 < entry_cash_delta db e
      · cases hcat : claim_first_non_cash_category db e <;>
          simp [hemp, hz, hpos, hcat] <;> omega
      · have habs : |entry_cash_delta db e| = -entry_cash_delta db e :=
          abs_of_nonpos (le_of_not_lt hpos)
        cases hcat : claim_first_non_cash_category db e <;>
          simp [hemp, hz, hpos, hcat, habs] <;> omega

theorem foldl_process_nets (db : DB) (es : List JournalEntry) (acc : CFAcc) :
    ((es.foldl (process_cash_flow_entry db) acc).operating_inflows
        - (es.foldl (process_cash_flow_entry db) acc).operating_outflows
      = acc.operating_inflows - acc.operating_outflows
        + ((es.filter (fun e => cf_entry_counts db e .operating)).map
            (fun e => entry_cash_delta db e)).sum) ∧
    ((es.foldl (process_cash_flow_entry db) acc).investing_inflows
        - (es.foldl (process_cash_flow_entry db) acc).investing_outflows
      = acc.investing_inflows - acc.investing_outflows
        + ((es.filter (fun e => cf_entry_counts db e .investing)).map
            (fun e => entry_cash_delta db e)).sum) ∧
    ((es.foldl (process_cash_flow_entry db) acc).financing_inflows
        - (es.foldl (process_cash_flow_entry db) acc).financing_outflows
      = acc.financing_inflows - acc.financing_outflows
        + ((es.filter (fun e => cf_entry_counts db e .financing)).map
            (fun e => entry_cash_delta db e)).sum) := by
  induction es generalizing acc with
  | nil => simp
  | cons e es ih =>
    simp only [List.foldl_cons, List.filter_cons]
    obtain ⟨h1, h2, h3⟩ := ih (process_cash_flow_entry db acc e)
    obtain ⟨p1, p2, p3⟩ := process_entry_nets db acc e
    refine ⟨?_, ?_, ?_⟩
    · rw [h1, p1]
      by_cases hc : cf_entry_counts db e .operating = true
      · rw [if_pos hc, if_pos hc]
        simp only [List.map_cons, List.sum_cons]
        omega
      · rw [if_neg hc, if_neg hc]
        omega
    · rw [h2, p2]
      by_cases hc : cf_entry_counts db e .investing = true
      · rw [if_pos hc, if_pos hc]
        simp only [List.map_cons, List.sum_cons]
        omega
      · rw [if_neg hc, if_neg hc]
        omega
    · rw [h3, p3]
      by_cases hc : cf_entry_counts db e .financing = true
      · rw [if_pos hc, if_pos hc]
        simp only [List.map_cons, List.sum_cons]
        omega
      · rw [if_neg hc, if_neg hc]
        omega

/-- C1: the claim states that for any set of POSTED entries the Balance
Sheet satisfies `check.assets = check.liabilities_plus_equity` exactly.
The code violates it: on the repository's own smoke-test ledger (the
fixture of `test_reporting_smoke.py`: every entry POSTED and individually
balanced), `get_balance_sheet` computes `check.assets = 7000` but
`check.liabilities_plus_equity = 0`, because revenue and expense balances
are never folded into equity. -/
theorem c1_balance_sheet_check_violated :
    smokeDB.entries.all (fun e => e.status == JournalStatus.posted) = true ∧
    ((smokeDB.lines.filter (fun l => l.journal_entry_id == 100)).map (fun l => l.debit)).sum =
      ((smokeDB.lines.filter (fun l => l.journal_entry_id == 100)).map (fun l => l.credit)).sum ∧
    ((smokeDB.lines.filter (fun l => l.journal_entry_id == 101)).map (fun l => l.debit)).sum =
      ((smokeDB.lines.filter (fun l => l.journal_entry_id == 101)).map (fun l => l.credit)).sum ∧
    (get_balance_sheet smokeDB 1 20250131).check_assets = 7000 ∧
    (get_balance_sheet smokeDB 1 20250131).check_liabilities_plus_equity = 0 ∧
    (get_balance_sheet smokeDB 1 20250131).check_assets ≠
      (get_balance_sheet smokeDB 1 20250131).check_liabilities_plus_equity := by
  refine ⟨?_, ?_, ?_, ?_, ?_, ?_⟩ <;> decide

/-- C2 (amended): `create_journal_entry` fails with the imbalance error and
performs no writes when the debit and credit sums differ; when they agree
AND every line's `account_id` resolves to an account of the company, it
inserts one POSTED JournalEntry with `posted_at` set, inserts every given
line referencing it, and returns the new entry (the error result leaves
the store unchanged — a raise before commit rolls the transaction back). -/
theorem c2_create_journal_entry_spec :
    ∀ (db : DB) (c : Nat) (d : Int) (ds : String) (sm : SourceModule) (si : Option Nat)
      (ls : List LineInput),
      (sum_debits ls ≠ sum_credits ls →
        create_journal_entry db c d ds sm si ls = .error "Journal entry is not balanced") ∧
      (sum_debits ls = sum_credits ls →
        ls.all (fun l => (line_account db c l).isSome) = true →
        ∃ je db1, create_journal_entry db c d ds sm si ls = .ok (je, db1) ∧
          je.status = .posted ∧ je.posted_at_set = true ∧ je.company_id = c ∧
          db1.entries = db.entries ++ [je] ∧
          db1.lines = db.lines ++ ls.map (mk_journal_line je.id) ∧
          db1.invoices = db.invoices ∧ db1.receipts = db.receipts ∧
          db1.bills = db.bills ∧ db1.payments = db.payments) := by
  intro db c d ds sm si ls
  constructor
  · intro hne
    unfold create_journal_entry
    rw [if_pos hne]
  · intro heq hall
    unfold create_journal_entry
    rw [if_neg (show ¬sum_debits ls ≠ sum_credits ls from fun hh => hh heq)]
    rw [if_pos hall]
    exact ⟨_, _, rfl, rfl, rfl, rfl, rfl, rfl, rfl, rfl, rfl, rfl⟩

/-- C2 witness: a balanced one-sided call fails with the imbalance error,
and a balanced two-line call on an existing account succeeds. -/
theorem c2_witness :
    create_journal_entry glDB 1 20250101 "Imbalanced" .manual none
        [ { account_id := 1, debit := 50, credit := 0, description := none } ] =
      .error "Journal entry is not balanced" ∧
    (create_journal_entry glDB 1 20250101 "Balanced" .manual none
        [ { account_id := 1, debit := 50, credit := 0, description := none },
          { account_id := 1, debit := 0, credit := 50, description := none } ]).isOk = true := by
  constructor
  · exact (c2_create_journal_entry_spec glDB 1 20250101 "Imbalanced" .manual none
      [ { account_id := 1, debit := 50, credit := 0, description := none } ]).1
      (by decide)
  · obtain ⟨je, db1, hok, -⟩ :=
      (c2_create_journal_entry_spec glDB 1 20250101 "Balanced" .manual none
        [ { account_id := 1, debit := 50, credit := 0, description := none },
          { account_id := 1, debit := 0, credit := 50, description := none } ]).2
        (by decide) (by decide)
    rw [hok]
    rfl

/-- C2 counterexample: the claim's unconditional "otherwise it inserts"
branch is false — a call whose debits equal its credits but whose lines
reference an account id unknown to the company fails and returns no
entry. -/
theorem c2_counterexample :
    sum_debits
        [ { account_id := 99, debit := 50, credit := 0, description := none },
          { account_id := 99, debit := 0, credit := 50, description := none } ] =
      sum_credits
        [ { account_id := 99, debit := 50, credit := 0, description := none },
          { account_id := 99, debit := 0, credit := 50, description := none } ] ∧
    (create_journal_entry glDB 1 20250101 "Balanced unknown account" .manual none
        [ { account_id := 99, debit := 50, credit := 0, description := none },
          { account_id := 99, debit := 0, credit := 50, description := none } ]).isOk
      = false := by
  exact ⟨by decide, by decide⟩

/-- C6 (amended): the Journal Poster checks account existence and
ownership but not activity — a call in which some line's `account_id`
resolves to no account of the company fails with the account error, while
a balanced call whose accounts all exist for the company succeeds even
when those accounts have `is_active = false`. -/
theorem c6_account_existence_checked_activity_not :
    ∀ (db : DB) (c : Nat) (d : Int) (ds : String) (sm : SourceModule) (si : Option Nat)
      (ls : List LineInput),
      (sum_debits ls = sum_credits ls →
        ls.all (fun l => (line_account db c l).isSome) = false →
        create_journal_entry db c d ds sm si ls = .error "Account not found for company") ∧
      (sum_debits ls = sum_credits ls →
        ls.all (fun l => (line_account db c l).isSome) = true →
        (create_journal_entry db c d ds sm si ls).isOk = true) := by
  intro db c d ds sm si ls
  constructor
  · intro heq hall
    unfold create_journal_entry
    rw [if_neg (show ¬sum_debits ls ≠ sum_credits ls from fun hh => hh heq)]
    rw [if_neg (show ¬ls.all (fun l => (line_account db c l).isSome) = true by
      rw [hall]; exact Bool.false_ne_true)]
  · intro heq hall
    unfold create_journal_entry
    rw [if_neg (show ¬sum_debits ls ≠ sum_credits ls from fun hh => hh heq)]
    rw [if_pos hall]
    rfl

/-- C6 witness: a balanced call on an unknown account id fails with the
account error, and a balanced call on the deactivated account 2 of
company 1 succeeds. -/
theorem c6_witness :
    create_journal_entry glDB 1 20250101 "Unknown account" .manual none
        [ { account_id := 99, debit := 50, credit := 0, description := none },
          { account_id := 99, debit := 0, credit := 50, description := none } ] =
      .error "Account not found for company" ∧
    (create_journal_entry glDB 1 20250101 "Inactive account" .manual none
        [ { account_id := 2, debit := 50, credit := 0, description := none },
          { account_id := 2, debit := 0, credit := 50, description := none } ]).isOk
      = true := by
  constructor
  · exact (c6_account_existence_checked_activity_not glDB 1 20250101 "Unknown account"
      .manual none
      [ { account_id := 99, debit := 50, credit := 0, description := none },
        { account_id := 99, debit := 0, credit := 50, description := none } ]).1
      (by decide) (by decide)
  · exact (c6_account_existence_checked_activity_not glDB 1 20250101 "Inactive account"
      .manual none
      [ { account_id := 2, debit := 50, credit := 0, description := none },
        { account_id := 2, debit := 0, credit := 50, description := none } ]).2
      (by decide) (by decide)

/-- C6 counterexample: the claim says a line on an account with
`is_active = false` makes the call fail; in the code the per-line check
filters only on id and company, so a balanced entry on the deactivated
account 2 is accepted. -/
theorem c6_counterexample :
    glInactive.is_active = false ∧
    glDB.accounts.find? (fun a => a.id == 2 && a.company_id == 1) = some glInactive ∧
    (create_journal_entry glDB 1 20250101 "Depreciation" .manual none
        [ { account_id := 2, debit := 50, credit := 0, description := none },
          { account_id := 2, debit := 0, credit := 50, description := none } ]).isOk
      = true := by
  refine ⟨?_, ?_, ?_⟩ <;> decide

/-- C9 (amended): an empty line set is NOT rejected — both sums are zero,
the balance check passes, and `create_journal_entry` creates and persists
a POSTED JournalEntry that owns no lines. -/
theorem c9_empty_line_set_posts_zero_line_entry :
    ∀ (db : DB) (c : Nat) (d : Int) (ds : String) (sm : SourceModule) (si : Option Nat),
      ∃ je db1, create_journal_entry db c d ds sm si [] = .ok (je, db1) ∧
        je.status = .posted ∧ je.posted_at_set = true ∧
        db1.entries = db.entries ++ [je] ∧
        db1.lines = db.lines := by
  intro db c d ds sm si
  unfold create_journal_entry
  rw [if_neg (show ¬sum_debits [] ≠ sum_credits [] from fun hh => hh rfl)]
  rw [if_pos (show List.all [] (fun l => (line_account db c l).isSome) = true from rfl)]
  exact ⟨_, _, rfl, rfl, rfl, rfl, by simp⟩

/-- C9 counterexample: the claim says a call with an empty lines list
fails with ValidationError and persists nothing; the code accepts it and
persists one new JournalEntry with zero JournalLines. -/
theorem c9_counterexample :
    (create_journal_entry glDB 1 20250101 "Emptyset" .manual none []).isOk = true ∧
    ((create_journal_entry glDB 1 20250101 "Emptyset" .manual none []).toOption.map
      (fun q => (q.2.entries.length, q.2.lines.length))) = some (1, 0) := by
  exact ⟨by decide, by decide⟩

/-- C7 (amended): the shared type/name account search
(`find_account_by_type_and_name`, used for the AR, AP, Revenue and
Expense roles) fails rather than guess when more than one account
matches; the cash-account lookup of `post_receipt`/`post_payment` does
NOT — it takes the first active cash account (see the counterexample). -/
theorem c7_typed_resolution_raises_on_multiple :
    ∀ (db : DB) (c : Nat) (ty : AccountType) (cp np : Option String),
      1 < (account_search_results db c ty cp np).length →
      find_account_by_type_and_name db c ty cp np true = .error "Multiple accounts found" := by
  intro db c ty cp np h
  unfold find_account_by_type_and_name
  rw [if_pos]
  simp [h]

/-- C7 witness: company 1 of `cashDB` owns three active asset accounts,
so the unfiltered asset search fails with the multiplicity error. -/
theorem c7_witness :
    1 < (account_search_results cashDB 1 .asset none none).length ∧
    find_account_by_type_and_name cashDB 1 .asset none none true =
      .error "Multiple accounts found" :=
  ⟨by decide, c7_typed_resolution_raises_on_multiple cashDB 1 .asset none none (by decide)⟩

/-- C7 counterexample: company 1 of `cashDB` has TWO active cash
accounts, yet `post_receipt` succeeds instead of failing with an
account-resolution error — the cash lookup silently picks the first
matching row. -/
theorem c7_counterexample :
    1 < (cashDB.accounts.filter (fun a =>
        a.company_id == 1 && a.is_cash && a.is_active)).length ∧
    (post_receipt cashDB 20).isOk = true := by
  exact ⟨by decide, by decide⟩

/-- C3: a successful fresh `post_receipt` on a receipt linked to an
existing invoice decrements that invoice's balance by exactly the receipt
amount and recomputes its status (`≤ 0 → PAID`,
`0 < balance < total → PARTIALLY_PAID`, else unchanged), and a second
call on the same receipt is a no-op returning the same journal entry id
(so the decrement is applied exactly once); `post_payment` applies the
same rule to the linked bill. -/
theorem c3_linked_document_settlement :
    (∀ (db : DB) (rid j : Nat) (db1 : DB) (r : ARReceipt) (iid : Nat) (inv : ARInvoice),
        db.receipts.find? (fun x => x.id == rid) = some r →
        r.journal_entry_id = none →
        r.invoice_id = some iid →
        db.invoices.find? (fun i => i.id == iid) = some inv →
        post_receipt db rid = .ok (j, db1) →
        db1.invoices.find? (fun i => i.id == iid) = some { inv with
          balance_amount := inv.balance_amount - r.amount,
          status := if inv.balance_amount - r.amount ≤ 0 then .paid
            else if inv.balance_amount - r.amount < inv.total_amount then .partlyPaid
            else inv.status } ∧
        post_receipt db1 rid = .ok (j, db1)) ∧
    (∀ (db : DB) (pid j : Nat) (db1 : DB) (p : APPayment) (bid : Nat) (bill : APBill),
        db.payments.find? (fun x => x.id == pid) = some p →
        p.journal_entry_id = none →
        p.bill_id = some bid →
        db.bills.find? (fun b => b.id == bid) = some bill →
        post_payment db pid = .ok (j, db1) →
        db1.bills.find? (fun b => b.id == bid) = some { bill with
          balance_amount := bill.balance_amount - p.amount,
          status := if bill.balance_amount - p.amount ≤ 0 then .paid
            else if bill.balance_amount - p.amount < bill.total_amount then .partlyPaid
            else bill.status } ∧
        post_payment db1 pid = .ok (j, db1)) := by
  constructor
  · intro db rid j db1 r iid inv h1 h2 h3 h4 h5
    exact ⟨post_receipt_applies db rid j db1 r iid inv h1 h2 h3 h4 h5,
           post_receipt_second_call db rid j db1 h5⟩
  · intro db pid j db1 p bid bill h1 h2 h3 h4 h5
    exact ⟨post_payment_applies db pid j db1 p bid bill h1 h2 h3 h4 h5,
           post_payment_second_call db pid j db1 h5⟩

/-- C3 witness: posting receipt 20 (60 against invoice 10 whose balance
is 100) leaves the invoice at balance 40 with status PARTIALLY_PAID, and
re-posting the receipt changes nothing; likewise payment 21 (60 against
bill 11) leaves the bill at 40 / PARTIALLY_PAID. -/
theorem c3_witness :
    (match post_receipt arDB 20 with
     | .ok (j, db1) =>
        db1.invoices.find? (fun i => i.id == 10) = some { arInvoice with
          balance_amount := 40, status := .partlyPaid } ∧
        post_receipt db1 20 = .ok (j, db1)
     | .error _ => False) ∧
    (match post_payment apDB 21 with
     | .ok (j, db1) =>
        db1.bills.find? (fun b => b.id == 11) = some { apBill with
          balance_amount := 40, status := .partlyPaid } ∧
        post_payment db1 21 = .ok (j, db1)
     | .error _ => False) := by
  constructor
  · cases hres : post_receipt arDB 20 with
    | error e =>
      have hok : (post_receipt arDB 20).toOption.isSome = true := by decide
      rw [hres] at hok
      simp [Except.toOption] at hok
    | ok q =>
      obtain ⟨j, db1⟩ := q
      simp only []
      exact c3_linked_document_settlement.1 arDB 20 j db1 arReceipt60 10 arInvoice
        rfl rfl rfl rfl hres
  · cases hres : post_payment apDB 21 with
    | error e =>
      have hok : (post_payment apDB 21).toOption.isSome = true := by decide
      rw [hres] at hok
      simp [Except.toOption] at hok
    | ok q =>
      obtain ⟨j, db1⟩ := q
      simp only []
      exact c3_linked_document_settlement.2 apDB 21 j db1 apPayment60 11 apBill
        rfl rfl rfl rfl hres

/-- C4: posting is idempotent — a successful first `post_invoice` on an
unposted invoice creates exactly one JournalEntry and exactly two
JournalLines, an invoice whose `journal_entry_id` is already set is
returned unchanged with that id, and for each of `post_invoice`,
`post_bill`, `post_receipt` and `post_payment` a second call after a
successful one returns the same journal entry id and the identical
store. -/
theorem c4_posting_idempotent :
    (∀ (db : DB) (iid j : Nat) (db1 : DB) (inv : ARInvoice),
        db.invoices.find? (fun i => i.id == iid) = some inv →
        inv.journal_entry_id = none →
        post_invoice db iid = .ok (j, db1) →
        db1.entries.length = db.entries.length + 1 ∧
        db1.lines.length = db.lines.length + 2) ∧
    (∀ (db : DB) (iid j : Nat) (inv : ARInvoice),
        db.invoices.find? (fun i => i.id == iid) = some inv →
        inv.journal_entry_id = some j →
        post_invoice db iid = .ok (j, db)) ∧
    (∀ (db : DB) (iid j : Nat) (db1 : DB),
        post_invoice db iid = .ok (j, db1) → post_invoice db1 iid = .ok (j, db1)) ∧
    (∀ (db : DB) (bid j : Nat) (db1 : DB),
        post_bill db bid = .ok (j, db1) → post_bill db1 bid = .ok (j, db1)) ∧
    (∀ (db : DB) (rid j : Nat) (db1 : DB),
        post_receipt db rid = .ok (j, db1) → post_receipt db1 rid = .ok (j, db1)) ∧
    (∀ (db : DB) (pid j : Nat) (db1 : DB),
        post_payment db pid = .ok (j, db1) → post_payment db1 pid = .ok (j, db1)) :=
  ⟨fun db iid j db1 inv h1 h2 h3 => post_invoice_counts db iid j db1 inv h1 h2 h3,
   fun db iid j inv h1 h2 => post_invoice_already_posted db iid j inv h1 h2,
   fun db iid j db1 h => post_invoice_second_call db iid j db1 h,
   fun db bid j db1 h => post_bill_second_call db bid j db1 h,
   fun db rid j db1 h => post_receipt_second_call db rid j db1 h,
   fun db pid j db1 h => post_payment_second_call db pid j db1 h⟩

/-- C4 witness: posting invoice 10 of `arDB` creates one entry and two
lines, and an immediate second call returns the same id and the same
store. -/
theorem c4_witness :
    (match post_invoice arDB 10 with
     | .ok (j, db1) =>
        db1.entries.length = 1 ∧ db1.lines.length = 2 ∧
        post_invoice db1 10 = .ok (j, db1)
     | .error _ => False) := by
  cases hres : post_invoice arDB 10 with
  | error e =>
    have hok : (post_invoice arDB 10).toOption.isSome = true := by decide
    rw [hres] at hok
    simp [Except.toOption] at hok
  | ok q =>
    obtain ⟨j, db1⟩ := q
    simp only []
    obtain ⟨h1, h2⟩ := c4_posting_idempotent.1 arDB 10 j db1 arInvoice rfl rfl hres
    exact ⟨by simpa using h1, by simpa using h2,
           c4_posting_idempotent.2.2.1 arDB 10 j db1 hres⟩

/-- C5 (amended): under a fresh linked receipt/payment of positive
amount, the upper bound `balance_amount ≤ total_amount` is preserved and
the balance strictly decreases; the lower bound `0 ≤ balance_amount` is
NOT maintained by the code — an amount exceeding the current balance
drives it negative (see the counterexample). -/
theorem c5_balance_bound_preservation :
    (∀ (db : DB) (rid j : Nat) (db1 : DB) (r : ARReceipt) (iid : Nat) (inv : ARInvoice),
        db.receipts.find? (fun x => x.id == rid) = some r →
        r.journal_entry_id = none →
        r.invoice_id = some iid →
        db.invoices.find? (fun i => i.id == iid) = some inv →
        post_receipt db rid = .ok (j, db1) →
        0 < r.amount →
        inv.balance_amount ≤ inv.total_amount →
        ∀ inv', db1.invoices.find? (fun i => i.id == iid) = some inv' →
          inv'.total_amount = inv.total_amount ∧
          inv'.balance_amount < inv.balance_amount ∧
          inv'.balance_amount ≤ inv'.total_amount) ∧
    (∀ (db : DB) (pid j : Nat) (db1 : DB) (p : APPayment) (bid : Nat) (bill : APBill),
        db.payments.find? (fun x => x.id == pid) = some p →
        p.journal_entry_id = none →
        p.bill_id = some bid →
        db.bills.find? (fun b => b.id == bid) = some bill →
        post_payment db pid = .ok (j, db1) →
        0 < p.amount →
        bill.balance_amount ≤ bill.total_amount →
        ∀ bill', db1.bills.find? (fun b => b.id == bid) = some bill' →
          bill'.total_amount = bill.total_amount ∧
          bill'.balance_amount < bill.balance_amount ∧
          bill'.balance_amount ≤ bill'.total_amount) := by
  constructor
  · intro db rid j db1 r iid inv h1 h2 h3 h4 h5 hpos hle inv' hfind
    have happ := post_receipt_applies db rid j db1 r iid inv h1 h2 h3 h4 h5
    rw [happ] at hfind
    obtain rfl := Option.some.inj hfind
    refine ⟨rfl, ?_, ?_⟩ <;> simp only [] <;> omega
  · intro db pid j db1 p bid bill h1 h2 h3 h4 h5 hpos hle bill' hfind
    have happ := post_payment_applies db pid j db1 p bid bill h1 h2 h3 h4 h5
    rw [happ] at hfind
    obtain rfl := Option.some.inj hfind
    refine ⟨rfl, ?_, ?_⟩ <;> simp only [] <;> omega

/-- C5 witness: receipt 20 (amount 60, invoice balance 100 = total 100)
leaves the invoice with total 100, a strictly smaller balance, and
balance ≤ total. -/
theorem c5_witness :
    (match post_receipt arDB 20 with
     | .ok (_, db1) =>
        (match db1.invoices.find? (fun i => i.id == 10) with
         | some inv' => inv'.total_amount = 100 ∧ inv'.balance_amount < 100 ∧
             inv'.balance_amount ≤ inv'.total_amount
         | none => False)
     | .error _ => False) := by
  cases hres : post_receipt arDB 20 with
  | error e =>
    have hok : (post_receipt arDB 20).toOption.isSome = true := by decide
    rw [hres] at hok
    simp [Except.toOption] at hok
  | ok q =>
    obtain ⟨j, db1⟩ := q
    simp only []
    cases hfind : db1.invoices.find? (fun i => i.id == 10) with
    | none =>
      have := post_receipt_applies arDB 20 j db1 arReceipt60 10 arInvoice
        rfl rfl rfl rfl hres
      rw [hfind] at this
      simp at this
    | some inv' =>
      simp only []
      have := c5_balance_bound_preservation.1 arDB 20 j db1 arReceipt60 10 arInvoice
        rfl rfl rfl rfl hres (by decide) (by decide) inv' hfind
      exact this

/-- C5 counterexample: posting receipt 21 (amount 150 against invoice 10
whose balance is 100) drives `balance_amount` to −50, violating the
claimed invariant `0 ≤ balance_amount`. -/
theorem c5_counterexample :
    ((post_receipt arDB 21).toOption.map
      (fun q => q.2.invoices.map (fun i => i.balance_amount))) = some [-50] ∧
    ((-50 : Int) < 0) := by
  exact ⟨by decide, by decide⟩

/-- C8: every POSTED entry of the period with at least one cash line and
a non-zero net cash delta is accumulated into exactly one category — the
one determined by the account type of its first non-cash line
(REVENUE/EXPENSE → OPERATING, non-cash ASSET → INVESTING,
LIABILITY/EQUITY → FINANCING, no non-cash line → OPERATING) — entries
with no cash line or zero delta are skipped, and
`closing_cash = opening_cash + Σ(category nets)` holds exactly. -/
theorem c8_cash_flow_categorization :
    ∀ (db : DB) (c : Nat) (f t : Int),
      (get_cash_flow db c f t).operating_net = claim_category_net db c f t .operating ∧
      (get_cash_flow db c f t).investing_net = claim_category_net db c f t .investing ∧
      (get_cash_flow db c f t).financing_net = claim_category_net db c f t .financing ∧
      (get_cash_flow db c f t).net_change_in_cash
        = (get_cash_flow db c f t).operating_net + (get_cash_flow db c f t).investing_net
          + (get_cash_flow db c f t).financing_net ∧
      (get_cash_flow db c f t).opening_cash = opening_cash_balance db c f ∧
      (get_cash_flow db c f t).closing_cash
        = (get_cash_flow db c f t).opening_cash
          + (get_cash_flow db c f t).net_change_in_cash := by
  intro db c f t
  obtain ⟨h1, h2, h3⟩ := foldl_process_nets db (entries_in_period db c f t)
    { operating_inflows := 0, operating_outflows := 0, investing_inflows := 0,
      investing_outflows := 0, financing_inflows := 0, financing_outflows := 0 }
  refine ⟨?_, ?_, ?_, rfl, rfl, rfl⟩
  · show ((entries_in_period db c f t).foldl (process_cash_flow_entry db)
        { operating_inflows := 0, operating_outflows := 0, investing_inflows := 0,
          investing_outflows := 0, financing_inflows := 0,
          financing_outflows := 0 }).operating_inflows
      - ((entries_in_period db c f t).foldl (process_cash_flow_entry db)
        { operating_inflows := 0, operating_outflows := 0, investing_inflows := 0,
          investing_outflows := 0, financing_inflows := 0,
          financing_outflows := 0 }).operating_outflows
      = claim_category_net db c f t .operating
    rw [h1]
    unfold claim_category_net
    simp only []
    omega
  · show ((entries_in_period db c f t).foldl (process_cash_flow_entry db)
        { operating_inflows := 0, operating_outflows := 0, investing_inflows := 0,
          investing_outflows := 0, financing_inflows := 0,
          financing_outflows := 0 }).investing_inflows
      - ((entries_in_period db c f t).foldl (process_cash_flow_entry db)
        { operating_inflows := 0, operating_outflows := 0, investing_inflows := 0,
          investing_outflows := 0, financing_inflows := 0,
          financing_outflows := 0 }).investing_outflows
      = claim_category_net db c f t .investing
    rw [h2]
    unfold claim_category_net
    simp only []
    omega
  · show ((entries_in_period db c f t).foldl (process_cash_flow_entry db)
        { operating_inflows := 0, operating_outflows := 0, investing_inflows := 0,
          investing_outflows := 0, financing_inflows := 0,
          financing_outflows := 0 }).financing_inflows
      - ((entries_in_period db c f t).foldl (process_cash_flow_entry db)
        { operating_inflows := 0, operating_outflows := 0, investing_inflows := 0,
          investing_outflows := 0, financing_inflows := 0,
          financing_outflows := 0 }).financing_outflows
      = claim_category_net db c f t .financing
    rw [h3]
    unfold claim_category_net
    simp only []
    omega

/-- C10: the Balance Sheet excludes REVENUE and EXPENSE accounts from all
three sections, and its `check` pair compares only ASSET balances against
LIABILITY-plus-EQUITY balances (no retained-earnings fold-in): every
section row carries the section's account type, and each check value
equals the sum of the signed balances of ALL accounts of the
corresponding types only. -/
theorem c10_balance_sheet_excludes_revenue_expense :
    ∀ (db : DB) (c : Nat) (d : Int),
      (get_balance_sheet db c d).assets.all
          (fun row => row.account_type == AccountType.asset) = true ∧
      (get_balance_sheet db c d).liabilities.all
          (fun row => row.account_type == AccountType.liability) = true ∧
      (get_balance_sheet db c d).equity.all
          (fun row => row.account_type == AccountType.equity) = true ∧
      (get_balance_sheet db c d).check_assets
        = ((db.accounts.filter (fun a => a.account_type == AccountType.asset)).map
            (account_balance_as_of db c d)).sum ∧
      (get_balance_sheet db c d).check_liabilities_plus_equity
        = ((db.accounts.filter (fun a => a.account_type == AccountType.liability)).map
            (account_balance_as_of db c d)).sum
          + ((db.accounts.filter (fun a => a.account_type == AccountType.equity)).map
              (account_balance_as_of db c d)).sum := by
  intro db c d
  refine ⟨?_, ?_, ?_, ?_, ?_⟩
  · show ((balance_sheet_rows db c d).filter
        (fun r => r.account_type == AccountType.asset)).all
        (fun row => row.account_type == AccountType.asset) = true
    rw [List.all_eq_true]
    intro r hr
    exact (List.mem_filter.mp hr).2
  · show ((balance_sheet_rows db c d).filter
        (fun r => r.account_type == AccountType.liability)).all
        (fun row => row.account_type == AccountType.liability) = true
    rw [List.all_eq_true]
    intro r hr
    exact (List.mem_filter.mp hr).2
  · show ((balance_sheet_rows db c d).filter
        (fun r => r.account_type == AccountType.equity)).all
        (fun row => row.account_type == AccountType.equity) = true
    rw [List.all_eq_true]
    intro r hr
    exact (List.mem_filter.mp hr).2
  · exact rows_type_sum db c d AccountType.asset db.accounts
  · rw [show (get_balance_sheet db c d).check_liabilities_plus_equity
        = (((balance_sheet_rows db c d).filter
            (fun r => r.account_type == AccountType.liability)).map
              (fun r => r.balance)).sum
          + (((balance_sheet_rows db c d).filter
              (fun r => r.account_type == AccountType.equity)).map
                (fun r => r.balance)).sum from rfl]
    exact congrArg₂ (fun x y => x + y)
      (rows_type_sum db c d AccountType.liability db.accounts)
      (rows_type_sum db c d AccountType.equity db.accounts)
